import Mathlib

/-!
Shallow embedding of the ServiceNow case/incident façade
(`src/operations/servicenow_operations.py`) and its Semantic Kernel adapter
(`src/plugins/servicenow_plugin.py`).

Modelling conventions:
* Python dicts are insertion-ordered association lists; JSON values are `JVal`.
* A ServiceNow record (one element of the response's `result` array) is an
  association list from field name to string value.
* The HTTP transport is an oracle passed to each operation.  For list
  endpoints the oracle maps the request parameters to
  `Except String (List Record)`: `.ok rs` is a 2xx response whose parsed JSON
  body yielded `rs` for `response.json().get("result", [])`, and `.error msg`
  is any `requests.exceptions.RequestException` (timeout, non-2xx raised by
  `raise_for_status`, network failure, or a malformed JSON body, whose
  `JSONDecodeError` is a `RequestException` subclass) — exactly the exception
  class each façade method catches.  Object endpoints (POST/PATCH) use
  `Except String Record` the same way.  Each Python method performs exactly
  one HTTP call, which the embedding mirrors by consulting the oracle once.
* `pyInt` models Python's `int(str)` (optional surrounding whitespace, one
  optional sign, a nonempty digit run); `pyIntErr` models `str(ValueError)`
  for that failure.  `pyJoin` models `str.join`.
-/

/-- JSON value as it appears in the façade's result envelopes: a string, an
integer, a boolean, JSON null, an array of records, or a single record. -/
inductive JVal where
  | s (v : String)
  | i (v : Int)
  | b (v : Bool)
  | null
  | arr (v : List (List (String × String)))
  | obj (v : List (String × String))
deriving DecidableEq

/-- Record: one JSON object from the table API, field name to string value. -/
abbrev Record := List (String × String)

/-- Result envelope: the Python dict each façade operation returns. -/
abbrev Envelope := List (String × JVal)

/-- Query-string parameters of a GET request (`params=` in the source). -/
abbrev ReqParams := List (String × String)

/-- Transport outcome for a list endpoint: the parsed `result` array, or the
message of the `RequestException` the call raised. -/
abbrev ListOutcome := Except String (List Record)

/-- Transport outcome for a single-object endpoint (POST/PATCH). -/
abbrev ObjOutcome := Except String Record

/-- Lookup in an insertion-ordered dict (Python `d.get(k)`, no default). -/
def dget? {α : Type} (d : List (String × α)) (k : String) : Option α :=
  match d.find? (fun kv => kv.1 == k) with
  | some kv => some kv.2
  | none => none

/-- Lookup in a result envelope (`result.get(k)`). -/
def jget (e : Envelope) (k : String) : Option JVal :=
  dget? e k

/-- Python truthiness of a JSON value. -/
def truthyJ : JVal → Bool
  | .s v => v != ""
  | .i v => v != 0
  | .b v => v
  | .null => false
  | .arr v => !v.isEmpty
  | .obj v => !v.isEmpty

/-- Python truthiness of `d.get(k)` (missing key gives `None`, falsy). -/
def truthyOpt : Option JVal → Bool
  | some v => truthyJ v
  | none => false

/-- Python truthiness of an optional-string parameter (`if x:`); `None` and
the empty string are falsy. -/
def pyTruthy : Option String → Bool
  | some v => v != ""
  | none => false

/-- Rendering of `record.get(k)` inside an f-string: the field's value, or
the text "None" when the field is absent. -/
def rget (r : Record) (k : String) : String :=
  match dget? r k with
  | some v => v
  | none => "None"

/-- Value of `record.get(k)` stored into an envelope: JSON null if absent. -/
def rjv (r : Record) (k : String) : JVal :=
  match dget? r k with
  | some v => .s v
  | none => .null

/-- Envelope integer field with a default (`result.get(k, d)` used as int). -/
def jgetIntD (e : Envelope) (k : String) (d : Int) : Int :=
  match jget e k with
  | some (.i n) => n
  | _ => d

/-- Envelope record-array field with a default (`result.get(k, [])`). -/
def jgetArrD (e : Envelope) (k : String) : List Record :=
  match jget e k with
  | some (.arr rs) => rs
  | _ => []

/-- Rendering of a JSON value inside an f-string.  Only `.s` values occur at
the call sites of the embedding (error messages are always strings). -/
def jvalStr : JVal → String
  | .s v => v
  | .i n => toString n
  | .b true => "True"
  | .b false => "False"
  | .null => "None"
  | .arr _ => "[...]"
  | .obj _ => "{...}"

/-- Rendering of `result.get("error", "Unknown error")` inside an f-string. -/
def jgetErrD (e : Envelope) : String :=
  match jget e "error" with
  | some v => jvalStr v
  | none => "Unknown error"

/-- Python `sep.join(xs)`. -/
def pyJoin (sep : String) : List String → String
  | [] => ""
  | [x] => x
  | x :: y :: xs => x ++ sep ++ pyJoin sep (y :: xs)

/-- Numeric value of a digit run. -/
def digitsVal (cs : List Char) : Nat :=
  cs.foldl (fun n c => n * 10 + (c.toNat - 48)) 0

/-- ASCII whitespace as stripped by Python's `int`. -/
def pyWS (c : Char) : Bool :=
  c == ' ' || c == '\t' || c == '\n' || c == '\r' || c == '\x0b' || c == '\x0c'

/-- Model of Python's `int(s)` on strings: surrounding whitespace stripped,
one optional sign, then a nonempty run of decimal digits; `none` when the
call would raise `ValueError`.  (Digit-group underscores and non-ASCII
digits or spaces are not modelled; no input in this development uses
them.) -/
def pyInt (s : String) : Option Int :=
  let t := ((s.toList.dropWhile pyWS).reverse.dropWhile pyWS).reverse
  match t with
  | [] => none
  | c :: rest =>
    let neg := c == '-'
    let core := if neg || c == '+' then rest else t
    if core.length != 0 && core.all Char.isDigit then
      some (if neg then -(digitsVal core : Int) else (digitsVal core : Int))
    else none

/-- Model of `str(ve)` for the `ValueError` raised by `int(s)`. -/
def pyIntErr (s : String) : String :=
  "invalid literal for int() with base 10: '" ++ s ++ "'"

/-- Python `dict[k] = v`: update in place if the key exists, append else. -/
def dictSet (d : List (String × JVal)) (k : String) (v : JVal) : List (String × JVal) :=
  if d.any (fun kv => kv.1 == k) then
    d.map (fun kv => if kv.1 == k then (k, v) else kv)
  else
    d ++ [(k, v)]

/-- Python `d.update(u)`. -/
def dictUpdate (d u : List (String × JVal)) : List (String × JVal) :=
  u.foldl (fun acc kv => dictSet acc kv.1 kv.2) d

namespace ServiceNowOperations

/-- Encoded query built by `search_cases_by_text` (source lines 374-380):
default fields when the list is `None` or empty, then one `fieldLIKEtext`
clause per field joined by `^OR`. -/
def search_cases_by_text_query (search_text : String) (search_fields : Option (List String)) : String :=
  let fields := match search_fields with
    | some fs => if fs.isEmpty then ["short_description", "description"] else fs
    | none => ["short_description", "description"]
  pyJoin "^OR" (fields.map (fun field => field ++ "LIKE" ++ search_text))

/-- Encoded query built by `search_incidents_by_text` (source lines 843-849),
textually identical construction to the case variant. -/
def search_incidents_by_text_query (search_text : String) (search_fields : Option (List String)) : String :=
  let fields := match search_fields with
    | some fs => if fs.isEmpty then ["short_description", "description"] else fs
    | none => ["short_description", "description"]
  pyJoin "^OR" (fields.map (fun field => field ++ "LIKE" ++ search_text))

/-- Request parameters of `query_incidents` (source lines 612-623): limit,
offset and display-value flag always present, then the conditional entries
in source order (a falsy value — `None` or empty — adds nothing). -/
def query_incidents_request (query : Option String) (limit offset : Int)
    (order_by : Option String) (fields : Option (List String)) : ReqParams :=
  [("sysparm_limit", toString limit), ("sysparm_offset", toString offset),
   ("sysparm_display_value", "false")]
  ++ (match query with
      | some q => if q != "" then [("sysparm_query", q)] else []
      | none => [])
  ++ (match order_by with
      | some ob => if ob != "" then [("sysparm_orderby", ob)] else []
      | none => [])
  ++ (match fields with
      | some fs => if !fs.isEmpty then [("sysparm_fields", pyJoin "," fs)] else []
      | none => [])

/-- Response handling of `query_incidents` (source lines 635-651): a caught
`RequestException` gives the failure envelope; a response gives the success
envelope with `count = len(results)` and `has_more = (count == limit)`. -/
def query_incidents_handle (limit offset : Int) (out : ListOutcome) : Envelope :=
  match out with
  | .error e => [("success", .b false), ("error", .s e)]
  | .ok results =>
    let count : Int := results.length
    let has_more : Bool := decide (count = limit)
    [("success", .b true), ("count", .i count), ("offset", .i offset),
     ("limit", .i limit), ("has_more", .b has_more), ("incidents", .arr results)]

/-- Façade `query_incidents` (source lines 590-651): builds the parameters,
performs the single GET via the transport oracle, and normalizes the
response. -/
def query_incidents (http : ReqParams → ListOutcome) (query : Option String)
    (limit offset : Int) (order_by : Option String) (fields : Option (List String)) : Envelope :=
  query_incidents_handle limit offset
    (http (query_incidents_request query limit offset order_by fields))

/-- Request parameters of `query_cases` (source lines 248-258): limit and
offset, then the conditional entries in source order (no display-value
flag). -/
def query_cases_request (query : Option String) (limit offset : Int)
    (order_by : Option String) (fields : Option (List String)) : ReqParams :=
  [("sysparm_limit", toString limit), ("sysparm_offset", toString offset)]
  ++ (match query with
      | some q => if q != "" then [("sysparm_query", q)] else []
      | none => [])
  ++ (match order_by with
      | some ob => if ob != "" then [("sysparm_orderby", ob)] else []
      | none => [])
  ++ (match fields with
      | some fs => if !fs.isEmpty then [("sysparm_fields", pyJoin "," fs)] else []
      | none => [])

/-- Response handling of `query_cases` (source lines 269-277): success carries
only `success`, `count` and `cases` — no offset, limit or paging flag. -/
def query_cases_handle (out : ListOutcome) : Envelope :=
  match out with
  | .error e => [("success", .b false), ("error", .s e)]
  | .ok results =>
    [("success", .b true), ("count", .i (results.length : Int)), ("cases", .arr results)]

/-- Façade `query_cases` (source lines 226-277). -/
def query_cases (http : ReqParams → ListOutcome) (query : Option String)
    (limit offset : Int) (order_by : Option String) (fields : Option (List String)) : Envelope :=
  query_cases_handle (http (query_cases_request query limit offset order_by fields))

/-- Façade `search_cases_by_text` (source lines 359-385): builds the `^OR`
text query and delegates to `query_cases` with the default offset 0. -/
def search_cases_by_text (http : ReqParams → ListOutcome) (search_text : String)
    (search_fields : Option (List String)) (limit : Int) : Envelope :=
  query_cases http (some (search_cases_by_text_query search_text search_fields))
    limit 0 (some "^sys_updated_on") none

/-- Façade `search_incidents_by_text` (source lines 826-854): builds the `^OR`
text query and delegates to `query_incidents`. -/
def search_incidents_by_text (http : ReqParams → ListOutcome) (search_text : String)
    (search_fields : Option (List String)) (limit offset : Int) : Envelope :=
  query_incidents http (some (search_incidents_by_text_query search_text search_fields))
    limit offset (some "^sys_updated_on") none

/-- Façade `get_open_incidents` (source lines 653-666). -/
def get_open_incidents (http : ReqParams → ListOutcome) (limit offset : Int) : Envelope :=
  query_incidents http (some "state!=6^state!=7") limit offset (some "^sys_updated_on") none

/-- Façade `get_high_priority_incidents` (source lines 668-680): the pre-built
priority-1-or-2 filter combined with the open-state exclusion. -/
def get_high_priority_incidents (http : ReqParams → ListOutcome) (limit offset : Int) : Envelope :=
  query_incidents http (some "priority=1^ORpriority=2^state!=6^state!=7") limit offset
    (some "priority") none

/-- Request parameters of `get_case_by_number` (source lines 163-166). -/
def get_case_by_number_request (case_number : String) : ReqParams :=
  [("sysparm_query", "number=" ++ case_number), ("sysparm_limit", "1")]

/-- Façade `get_case_by_number` (source lines 151-190): a filtered list query
with limit 1; the first record on success, a not-found failure envelope on an
empty result, a failure envelope on a transport error. -/
def get_case_by_number (http : ReqParams → ListOutcome) (case_number : String) : Envelope :=
  match http (get_case_by_number_request case_number) with
  | .error e => [("success", .b false), ("error", .s e)]
  | .ok [] => [("success", .b false), ("error", .s ("Case " ++ case_number ++ " not found"))]
  | .ok (r :: _) => [("success", .b true), ("case", .obj r)]

/-- Request parameters of `get_incident_by_number` (source lines 561-564). -/
def get_incident_by_number_request (incident_number : String) : ReqParams :=
  [("sysparm_query", "number=" ++ incident_number), ("sysparm_limit", "1")]

/-- Façade `get_incident_by_number` (source lines 549-588). -/
def get_incident_by_number (http : ReqParams → ListOutcome) (incident_number : String) : Envelope :=
  match http (get_incident_by_number_request incident_number) with
  | .error e => [("success", .b false), ("error", .s e)]
  | .ok [] =>
    [("success", .b false), ("error", .s ("Incident " ++ incident_number ++ " not found"))]
  | .ok (r :: _) => [("success", .b true), ("incident", .obj r)]

/-- Façade `update_case` (source lines 192-224): one PATCH of the updates
dict; the transport oracle receives the target sys_id and the updates. -/
def update_case (http : String → Record → ObjOutcome) (case_sys_id : String)
    (updates : Record) : Envelope :=
  match http case_sys_id updates with
  | .error e => [("success", .b false), ("error", .s e)]
  | .ok result => [("success", .b true), ("case", .obj result)]

/-- Façade `update_incident` (source lines 682-714). -/
def update_incident (http : String → Record → ObjOutcome) (incident_sys_id : String)
    (updates : Record) : Envelope :=
  match http incident_sys_id updates with
  | .error e => [("success", .b false), ("error", .s e)]
  | .ok result => [("success", .b true), ("incident", .obj result)]

/-- Updates dict built by `close_case` (source lines 344-352): state 3 and
the server-evaluated resolution timestamp, then the truthy optional fields. -/
def close_case_updates (resolution_notes close_code : Option String) : Record :=
  [("state", "3"), ("resolved_at", "javascript:gs.nowDateTime()")]
  ++ (match resolution_notes with
      | some v => if v != "" then [("resolution_notes", v)] else []
      | none => [])
  ++ (match close_code with
      | some v => if v != "" then [("close_code", v)] else []
      | none => [])

/-- Façade `close_case` (source lines 328-357): delegates to `update_case`. -/
def close_case (http : String → Record → ObjOutcome) (case_sys_id : String)
    (resolution_notes close_code : Option String) : Envelope :=
  update_case http case_sys_id (close_case_updates resolution_notes close_code)

/-- Updates dict built by `resolve_incident` (source lines 754-762). -/
def resolve_incident_updates (resolution_notes resolution_code : Option String) : Record :=
  [("state", "6"), ("resolved_at", "javascript:gs.nowDateTime()")]
  ++ (match resolution_notes with
      | some v => if v != "" then [("resolution_notes", v)] else []
      | none => [])
  ++ (match resolution_code with
      | some v => if v != "" then [("resolution_code", v)] else []
      | none => [])

/-- Façade `resolve_incident` (source lines 738-767). -/
def resolve_incident (http : String → Record → ObjOutcome) (incident_sys_id : String)
    (resolution_notes resolution_code : Option String) : Envelope :=
  update_incident http incident_sys_id (resolve_incident_updates resolution_notes resolution_code)

/-- Updates dict built by `close_incident` (source lines 785-793): state 7 and
the server-evaluated closure timestamp, then the truthy optional fields. -/
def close_incident_updates (close_notes close_code : Option String) : Record :=
  [("state", "7"), ("closed_at", "javascript:gs.nowDateTime()")]
  ++ (match close_notes with
      | some v => if v != "" then [("close_notes", v)] else []
      | none => [])
  ++ (match close_code with
      | some v => if v != "" then [("close_code", v)] else []
      | none => [])

/-- Façade `close_incident` (source lines 769-798): delegates to
`update_incident`. -/
def close_incident (http : String → Record → ObjOutcome) (incident_sys_id : String)
    (close_notes close_code : Option String) : Envelope :=
  update_incident http incident_sys_id (close_incident_updates close_notes close_code)

/-- Updates dict built by `assign_incident` (source lines 816-819). -/
def assign_incident_updates (assigned_to : String) (assignment_group : Option String) : Record :=
  [("assigned_to", assigned_to)]
  ++ (match assignment_group with
      | some v => if v != "" then [("assignment_group", v)] else []
      | none => [])

/-- Façade `assign_incident` (source lines 800-824). -/
def assign_incident (http : String → Record → ObjOutcome) (incident_sys_id : String)
    (assigned_to : String) (assignment_group : Option String) : Envelope :=
  update_incident http incident_sys_id (assign_incident_updates assigned_to assignment_group)

/-- Payload built by `create_case` (source lines 82-96): short description and
priority (JSON null when `None` is passed), the truthy optional fields in
source order, then `payload.update(additional_fields)` when truthy. -/
def create_case_payload (short_description : String) (description priority contact account
    category : Option String) (additional_fields : Option (List (String × JVal))) :
    List (String × JVal) :=
  let payload : List (String × JVal) :=
    [("short_description", .s short_description),
     ("priority", match priority with | some p => .s p | none => .null)]
  let payload := payload ++ (match description with
    | some v => if v != "" then [("description", JVal.s v)] else []
    | none => [])
  let payload := payload ++ (match contact with
    | some v => if v != "" then [("contact", JVal.s v)] else []
    | none => [])
  let payload := payload ++ (match account with
    | some v => if v != "" then [("account", JVal.s v)] else []
    | none => [])
  let payload := payload ++ (match category with
    | some v => if v != "" then [("category", JVal.s v)] else []
    | none => [])
  match additional_fields with
  | some af => if !af.isEmpty then dictUpdate payload af else payload
  | none => payload

/-- Façade `create_case` (source lines 56-119): one POST of the payload; on
success the envelope echoes selected fields of the created record and a
portal URL built from the instance host and table name. -/
def create_case (http : List (String × JVal) → ObjOutcome) (instanceHost table : String)
    (short_description : String) (description priority contact account category : Option String)
    (additional_fields : Option (List (String × JVal))) : Envelope :=
  match http (create_case_payload short_description description priority contact account
      category additional_fields) with
  | .error e => [("success", .b false), ("error", .s e)]
  | .ok result =>
    [("success", .b true), ("case_number", rjv result "number"),
     ("sys_id", rjv result "sys_id"), ("state", rjv result "state"),
     ("priority", rjv result "priority"),
     ("short_description", rjv result "short_description"),
     ("url", .s ("https://" ++ instanceHost ++ "/nav_to.do?uri=" ++ table ++ ".do?sys_id="
       ++ rget result "sys_id"))]

end ServiceNowOperations

namespace ServiceNowPlugin

/-- Rendering of `query_open_incidents` (plugin source lines 209-234): the
success branch formats the page header, one block per incident, and the
next-page hint when `has_more` is truthy; the failure branch formats the
envelope's error. -/
def render_open_incidents (page_num offset : Int) (result : Envelope) : String :=
  if truthyOpt (jget result "success") then
    let incidents := jgetArrD result "incidents"
    let count := jgetIntD result "count" 0
    let has_more := truthyOpt (jget result "has_more")
    if count = 0 then "No open incidents found."
    else
      "Open Incidents - Page " ++ toString page_num ++ " (showing " ++ toString (offset + 1)
        ++ "-" ++ toString (offset + count) ++ "):\n"
      ++ String.join (incidents.map (fun incident =>
           "\n- Incident " ++ rget incident "number" ++ ": "
           ++ rget incident "short_description"
           ++ "\n  Priority: " ++ rget incident "priority"
           ++ ", Urgency: " ++ rget incident "urgency"
           ++ ", Impact: " ++ rget incident "impact"
           ++ ", State: " ++ rget incident "state"))
      ++ (if has_more then
            "\n\nMore incidents available. Use query_open_incidents with page_number='"
            ++ toString (page_num + 1) ++ "' to continue."
          else "")
  else
    "Failed to query open incidents: " ++ jgetErrD result

/-- Adapter `query_open_incidents` (plugin source lines 185-238): parses the
string page parameters (a `ValueError` is rendered as a human-readable
message), computes `offset = (page_num - 1) * page_sz`, issues the façade
query with the open-state exclusion, and renders the result. -/
def query_open_incidents (http : ReqParams → ListOutcome)
    (page_number page_size : String) : String :=
  match pyInt page_number with
  | none => "Invalid page parameters for open incidents: " ++ pyIntErr page_number
  | some page_num =>
    match pyInt page_size with
    | none => "Invalid page parameters for open incidents: " ++ pyIntErr page_size
    | some page_sz =>
      render_open_incidents page_num ((page_num - 1) * page_sz)
        (ServiceNowOperations.query_incidents http (some "state!=6^state!=7") page_sz
          ((page_num - 1) * page_sz) (some "^sys_updated_on") none)

/-- Rendering of `query_high_priority_incidents` (plugin source lines
267-296). -/
def render_high_priority_incidents (page_num offset : Int) (result : Envelope) : String :=
  if truthyOpt (jget result "success") then
    let incidents := jgetArrD result "incidents"
    let count := jgetIntD result "count" 0
    let has_more := truthyOpt (jget result "has_more")
    if count = 0 then "No high priority incidents found."
    else
      "High Priority Incidents - Page " ++ toString page_num ++ " (showing "
        ++ toString (offset + 1) ++ "-" ++ toString (offset + count) ++ "):\n"
      ++ String.join (incidents.map (fun incident =>
           "\n- Incident " ++ rget incident "number" ++ ": "
           ++ rget incident "short_description"
           ++ "\n  Priority: " ++ rget incident "priority"
           ++ ", Urgency: " ++ rget incident "urgency"
           ++ ", Impact: " ++ rget incident "impact"
           ++ ", State: " ++ rget incident "state"))
      ++ (if has_more then
            "\n\nMore high priority incidents available. Use query_high_priority_incidents with page_number='"
            ++ toString (page_num + 1) ++ "' to continue."
          else "")
  else
    "Failed to query high priority incidents: " ++ jgetErrD result

/-- Adapter `query_high_priority_incidents` (plugin source lines 244-296):
same paging arithmetic; the issued query is only `priority=1^ORpriority=2`
(no open-state exclusion in this path). -/
def query_high_priority_incidents (http : ReqParams → ListOutcome)
    (page_number page_size : String) : String :=
  match pyInt page_number with
  | none => "Invalid page parameters for high priority incidents: " ++ pyIntErr page_number
  | some page_num =>
    match pyInt page_size with
    | none => "Invalid page parameters for high priority incidents: " ++ pyIntErr page_size
    | some page_sz =>
      render_high_priority_incidents page_num ((page_num - 1) * page_sz)
        (ServiceNowOperations.query_incidents http (some "priority=1^ORpriority=2") page_sz
          ((page_num - 1) * page_sz) (some "^sys_updated_on") none)

/-- Rendering of `search_incidents` (plugin source lines 472-497). -/
def render_search_incidents (search_text : String) (page_num offset : Int)
    (result : Envelope) : String :=
  if truthyOpt (jget result "success") then
    let incidents := jgetArrD result "incidents"
    let count := jgetIntD result "count" 0
    let has_more := truthyOpt (jget result "has_more")
    if count = 0 then "No incidents found matching '" ++ search_text ++ "'."
    else
      "Search Results for '" ++ search_text ++ "' - Page " ++ toString page_num
        ++ " (showing " ++ toString (offset + 1) ++ "-" ++ toString (offset + count) ++ "):\n"
      ++ String.join (incidents.map (fun incident =>
           "\n- Incident " ++ rget incident "number" ++ ": "
           ++ rget incident "short_description"
           ++ "\n  Priority: " ++ rget incident "priority"
           ++ ", Urgency: " ++ rget incident "urgency"
           ++ ", Impact: " ++ rget incident "impact"
           ++ ", State: " ++ rget incident "state"))
      ++ (if has_more then
            "\n\nMore results available. Use search_incidents with search_text='" ++ search_text
            ++ "' and page_number='" ++ toString (page_num + 1) ++ "' to continue."
          else "")
  else
    "Failed to search incidents: " ++ jgetErrD result

/-- Adapter `search_incidents` (plugin source lines 445-501): parses the page
parameters, builds the two-field LIKE query inline with the search text
embedded verbatim, and issues the façade query with the computed offset. -/
def search_incidents (http : ReqParams → ListOutcome) (search_text : String)
    (page_number page_size : String) : String :=
  match pyInt page_number with
  | none => "Invalid page parameters for search: " ++ pyIntErr page_number
  | some page_num =>
    match pyInt page_size with
    | none => "Invalid page parameters for search: " ++ pyIntErr page_size
    | some page_sz =>
      render_search_incidents search_text page_num ((page_num - 1) * page_sz)
        (ServiceNowOperations.query_incidents http
          (some ("short_descriptionLIKE" ++ search_text ++ "^ORdescriptionLIKE" ++ search_text))
          page_sz ((page_num - 1) * page_sz) (some "^sys_updated_on") none)

end ServiceNowPlugin

/-- Modelled from the spec's words, for comparison with the source builders:
text search across N fields compiles to
`field1LIKEtext^ORfield2LIKEtext^OR...`, one clause per field in field-list
order, with the search text embedded verbatim. -/
def specLikeJoin (text : String) : List String → String
  | [] => ""
  | [f] => f ++ "LIKE" ++ text
  | f :: g :: rest => f ++ "LIKE" ++ text ++ "^OR" ++ specLikeJoin text (g :: rest)

theorem pyJoin_map_like (text : String) :
    ∀ fs : List String, fs ≠ [] →
      pyJoin "^OR" (fs.map (fun f => f ++ "LIKE" ++ text)) = specLikeJoin text fs
  | [], h => absurd rfl h
  | [_], _ => rfl
  | f :: g :: rest, _ => by
    have ih := pyJoin_map_like text (g :: rest) (by simp)
    simp only [List.map, pyJoin, specLikeJoin] at ih ⊢
    rw [ih]

/-- C1: for every successful list response of `query_incidents`, the
`has_more` flag of the returned envelope is true iff the number of returned
records equals the requested limit; in particular, when fewer records than
`limit` are returned, `has_more` is false. -/
theorem query_incidents_has_more_iff_full_page (results : List Record) (limit offset : Int) :
    (jget (ServiceNowOperations.query_incidents_handle limit offset (.ok results)) "has_more"
        = some (.b true) ↔ (results.length : Int) = limit)
    ∧ ((results.length : Int) < limit →
      jget (ServiceNowOperations.query_incidents_handle limit offset (.ok results)) "has_more"
        = some (.b false)) := by
  have h0 : jget (ServiceNowOperations.query_incidents_handle limit offset (.ok results)) "has_more"
      = some (.b (decide ((results.length : Int) = limit))) := rfl
  constructor
  · rw [h0]
    constructor
    · intro h
      have := (Option.some.injEq _ _).mp h
      have hb : decide ((results.length : Int) = limit) = true := by
        cases hd : decide ((results.length : Int) = limit) with
        | true => rfl
        | false => rw [hd] at this; exact absurd this (by simp)
      exact of_decide_eq_true hb
    · intro h
      rw [h]
      simp
  · intro hlt
    rw [h0]
    have : decide ((results.length : Int) = limit) = false :=
      decide_eq_false (by omega)
    rw [this]

/-- C1 witness: an empty page with limit 20 has fewer records than the limit
and its envelope carries `has_more = false`. -/
theorem query_incidents_has_more_iff_full_page_witness :
    jget (ServiceNowOperations.query_incidents_handle 20 0 (.ok [])) "has_more"
      = some (.b false) :=
  (query_incidents_has_more_iff_full_page [] 20 0).2 (by decide)

/-- C2: for every search text and every non-empty field list (with
`short_description` and `description` as the default when none is supplied),
both text-search builders produce exactly the `^OR`-join of one
`fieldLIKEtext` clause per field, in field-list order, with the search text
embedded verbatim and the `^` delimiter unescaped. -/
theorem search_by_text_query_is_or_join (text : String) (fs : List String) (h : fs ≠ []) :
    ServiceNowOperations.search_cases_by_text_query text (some fs) = specLikeJoin text fs
    ∧ ServiceNowOperations.search_incidents_by_text_query text (some fs) = specLikeJoin text fs
    ∧ ServiceNowOperations.search_cases_by_text_query text none
        = specLikeJoin text ["short_description", "description"]
    ∧ ServiceNowOperations.search_incidents_by_text_query text none
        = specLikeJoin text ["short_description", "description"] := by
  obtain ⟨f, rest, rfl⟩ : ∃ f rest, fs = f :: rest := by
    cases fs with
    | nil => exact absurd rfl h
    | cons f rest => exact ⟨f, rest, rfl⟩
  refine ⟨?_, ?_, ?_, ?_⟩
  · show pyJoin "^OR" ((f :: rest).map (fun fd => fd ++ "LIKE" ++ text)) = _
    exact pyJoin_map_like text (f :: rest) (by simp)
  · show pyJoin "^OR" ((f :: rest).map (fun fd => fd ++ "LIKE" ++ text)) = _
    exact pyJoin_map_like text (f :: rest) (by simp)
  · exact pyJoin_map_like text ["short_description", "description"] (by simp)
  · exact pyJoin_map_like text ["short_description", "description"] (by simp)

/-- C2 witness: the spec's worked example, on the default field list and on
an explicit two-field list, including a search text containing the `^`
delimiter, which is embedded verbatim. -/
theorem search_by_text_query_is_or_join_witness :
    ServiceNowOperations.search_cases_by_text_query "login failure" none
      = "short_descriptionLIKElogin failure^ORdescriptionLIKElogin failure"
    ∧ ServiceNowOperations.search_incidents_by_text_query "a^b" (some ["state", "priority"])
      = "stateLIKEa^b^ORpriorityLIKEa^b" := by
  constructor
  · have := (search_by_text_query_is_or_join "login failure" ["x"] (by decide)).2.2.1
    rw [this]; decide
  · have := (search_by_text_query_is_or_join "a^b" ["state", "priority"] (by decide)).2.1
    rw [this]; decide

/-- C3 counterexample: probing the adapter's `query_high_priority_incidents`
with an oracle that echoes the issued `sysparm_query` back as the error
message shows that this path sends only `priority=1^ORpriority=2` — not the
claimed filter with the open-state exclusion appended. -/
theorem query_high_priority_adapter_no_state_filter :
    ServiceNowPlugin.query_high_priority_incidents
        (fun ps => .error ((dget? ps "sysparm_query").getD "")) "1" "20"
      = "Failed to query high priority incidents: priority=1^ORpriority=2"
    ∧ ServiceNowPlugin.query_high_priority_incidents
        (fun ps => .error ((dget? ps "sysparm_query").getD "")) "1" "20"
      ≠ "Failed to query high priority incidents: priority=1^ORpriority=2^state!=6^state!=7" := by
  decide

/-- C3 (amended): the façade's `get_high_priority_incidents` issues the
alternative-value priority filter combined via `^` with the open-state
exclusion (`priority=1^ORpriority=2^state!=6^state!=7`), while the adapter's
`query_high_priority_incidents` issues only `priority=1^ORpriority=2`, with
no open-state exclusion on that path. -/
theorem high_priority_incidents_queries (limit offset : Int) (http : ReqParams → ListOutcome)
    (pn ps : String) (p s : Int) (h1 : pyInt pn = some p) (h2 : pyInt ps = some s) :
    ServiceNowOperations.get_high_priority_incidents http limit offset
      = ServiceNowOperations.query_incidents http
          (some "priority=1^ORpriority=2^state!=6^state!=7") limit offset (some "priority") none
    ∧ ServiceNowPlugin.query_high_priority_incidents http pn ps
      = ServiceNowPlugin.render_high_priority_incidents p ((p - 1) * s)
          (ServiceNowOperations.query_incidents http (some "priority=1^ORpriority=2") s
            ((p - 1) * s) (some "^sys_updated_on") none)
    ∧ dget? (ServiceNowOperations.query_incidents_request
          (some "priority=1^ORpriority=2^state!=6^state!=7") limit offset (some "priority") none)
        "sysparm_query" = some "priority=1^ORpriority=2^state!=6^state!=7"
    ∧ dget? (ServiceNowOperations.query_incidents_request (some "priority=1^ORpriority=2") s
          ((p - 1) * s) (some "^sys_updated_on") none)
        "sysparm_query" = some "priority=1^ORpriority=2" := by
  refine ⟨rfl, ?_, rfl, rfl⟩
  unfold ServiceNowPlugin.query_high_priority_incidents
  rw [h1, h2]

/-- C3 witness for the amended statement, at page 1 of size 20 with a benign
transport. -/
theorem high_priority_incidents_queries_witness :
    ServiceNowOperations.get_high_priority_incidents (fun _ => .ok []) 20 0
      = ServiceNowOperations.query_incidents (fun _ => .ok [])
          (some "priority=1^ORpriority=2^state!=6^state!=7") 20 0 (some "priority") none
    ∧ ServiceNowPlugin.query_high_priority_incidents (fun _ => .ok []) "1" "20"
      = ServiceNowPlugin.render_high_priority_incidents 1 ((1 - 1) * 20)
          (ServiceNowOperations.query_incidents (fun _ => .ok []) (some "priority=1^ORpriority=2")
            20 ((1 - 1) * 20) (some "^sys_updated_on") none)
    ∧ dget? (ServiceNowOperations.query_incidents_request
          (some "priority=1^ORpriority=2^state!=6^state!=7") 20 0 (some "priority") none)
        "sysparm_query" = some "priority=1^ORpriority=2^state!=6^state!=7"
    ∧ dget? (ServiceNowOperations.query_incidents_request (some "priority=1^ORpriority=2") 20
          ((1 - 1) * 20) (some "^sys_updated_on") none)
        "sysparm_query" = some "priority=1^ORpriority=2" :=
  high_priority_incidents_queries 20 0 (fun _ => .ok []) "1" "20" 1 20 (by decide) (by decide)

/-- C4 counterexample: a successful `query_cases` call returns an envelope
with only `success`, `count` and `cases` — it carries no `offset`, `limit` or
`has_more` entry, contradicting the claim that the case-table list path
returns the same paging envelope as `query_incidents`. -/
theorem query_cases_envelope_no_paging_fields :
    ServiceNowOperations.query_cases (fun _ => .ok []) none 100 0 none none
      = [("success", .b true), ("count", .i 0), ("cases", .arr [])]
    ∧ jget (ServiceNowOperations.query_cases (fun _ => .ok []) none 100 0 none none)
        "has_more" = none
    ∧ jget (ServiceNowOperations.query_cases (fun _ => .ok []) none 100 0 none none)
        "offset" = none
    ∧ jget (ServiceNowOperations.query_cases (fun _ => .ok []) none 100 0 none none)
        "limit" = none := by
  decide

/-- C4 (amended): both list paths return `success=false` with an error
message on failure; on success `query_incidents` carries `count`, `offset`,
`limit`, the derived `has_more` flag and the records, while `query_cases`
carries only `count` and the records, with no offset, limit or `has_more`. -/
theorem list_operation_envelopes (results : List Record) (err : String) (limit offset : Int) :
    ServiceNowOperations.query_incidents_handle limit offset (.ok results)
      = [("success", .b true), ("count", .i (results.length : Int)), ("offset", .i offset),
         ("limit", .i limit), ("has_more", .b (decide ((results.length : Int) = limit))),
         ("incidents", .arr results)]
    ∧ ServiceNowOperations.query_incidents_handle limit offset (.error err)
      = [("success", .b false), ("error", .s err)]
    ∧ ServiceNowOperations.query_cases_handle (.ok results)
      = [("success", .b true), ("count", .i (results.length : Int)), ("cases", .arr results)]
    ∧ ServiceNowOperations.query_cases_handle (.error err)
      = [("success", .b false), ("error", .s err)]
    ∧ jget (ServiceNowOperations.query_cases_handle (.ok results)) "has_more" = none :=
  ⟨rfl, rfl, rfl, rfl, rfl⟩

/-- C5: every embedded façade operation converts a transport failure
(timeout, non-2xx, network failure, malformed JSON — all raised as the one
`RequestException` class the call boundary catches) into the failure
envelope `{success: false, error: message}`; each operation consults the
transport exactly once, so no retry occurs, and as a total function it
raises nothing past the boundary. -/
theorem transport_failure_envelope (msg : String) (q ob : Option String)
    (fl : Option (List String)) (limit offset : Int) (n sysid host table sd : String)
    (d pr c a cat : Option String) (af : Option (List (String × JVal))) (upd : Record) :
    ServiceNowOperations.query_incidents (fun _ => .error msg) q limit offset ob fl
      = [("success", .b false), ("error", .s msg)]
    ∧ ServiceNowOperations.query_cases (fun _ => .error msg) q limit offset ob fl
      = [("success", .b false), ("error", .s msg)]
    ∧ ServiceNowOperations.create_case (fun _ => .error msg) host table sd d pr c a cat af
      = [("success", .b false), ("error", .s msg)]
    ∧ ServiceNowOperations.get_case_by_number (fun _ => .error msg) n
      = [("success", .b false), ("error", .s msg)]
    ∧ ServiceNowOperations.get_incident_by_number (fun _ => .error msg) n
      = [("success", .b false), ("error", .s msg)]
    ∧ ServiceNowOperations.update_case (fun _ _ => .error msg) sysid upd
      = [("success", .b false), ("error", .s msg)]
    ∧ ServiceNowOperations.update_incident (fun _ _ => .error msg) sysid upd
      = [("success", .b false), ("error", .s msg)] :=
  ⟨rfl, rfl, rfl, rfl, rfl, rfl, rfl⟩

/-- C6: for every well-formed but nonexistent number (an empty result on the
limit-1 filtered list query), both by-number lookups return a failure
envelope with `success=false` and a descriptive not-found message, carry no
record payload, and, being total functions of the outcome, raise nothing. -/
theorem by_number_not_found (n : String) :
    ServiceNowOperations.get_case_by_number (fun _ => .ok []) n
      = [("success", .b false), ("error", .s ("Case " ++ n ++ " not found"))]
    ∧ jget (ServiceNowOperations.get_case_by_number (fun _ => .ok []) n) "case" = none
    ∧ ServiceNowOperations.get_case_by_number_request n
      = [("sysparm_query", "number=" ++ n), ("sysparm_limit", "1")]
    ∧ ServiceNowOperations.get_incident_by_number (fun _ => .ok []) n
      = [("success", .b false), ("error", .s ("Incident " ++ n ++ " not found"))]
    ∧ jget (ServiceNowOperations.get_incident_by_number (fun _ => .ok []) n) "incident" = none
    ∧ ServiceNowOperations.get_incident_by_number_request n
      = [("sysparm_query", "number=" ++ n), ("sysparm_limit", "1")] :=
  ⟨rfl, rfl, rfl, rfl, rfl, rfl⟩

/-- C7: for every page_number that parses to `p ≥ 1` and every page_size
parsing to `s`, each paged adapter function computes `offset = (p - 1) * s`
(1-indexed pages) and delegates to the façade list query at exactly that
offset with `limit = s`; the issued request carries those values as
`sysparm_offset` and `sysparm_limit`. -/
theorem adapter_paging_offset (pn ps text : String) (p s : Int)
    (http : ReqParams → ListOutcome) (q ob : Option String) (fl : Option (List String))
    (h1 : pyInt pn = some p) (h2 : pyInt ps = some s) (_hp : 1 ≤ p) :
    ServiceNowPlugin.query_open_incidents http pn ps
      = ServiceNowPlugin.render_open_incidents p ((p - 1) * s)
          (ServiceNowOperations.query_incidents http (some "state!=6^state!=7") s
            ((p - 1) * s) (some "^sys_updated_on") none)
    ∧ ServiceNowPlugin.query_high_priority_incidents http pn ps
      = ServiceNowPlugin.render_high_priority_incidents p ((p - 1) * s)
          (ServiceNowOperations.query_incidents http (some "priority=1^ORpriority=2") s
            ((p - 1) * s) (some "^sys_updated_on") none)
    ∧ ServiceNowPlugin.search_incidents http text pn ps
      = ServiceNowPlugin.render_search_incidents text p ((p - 1) * s)
          (ServiceNowOperations.query_incidents http
            (some ("short_descriptionLIKE" ++ text ++ "^ORdescriptionLIKE" ++ text)) s
            ((p - 1) * s) (some "^sys_updated_on") none)
    ∧ dget? (ServiceNowOperations.query_incidents_request q s ((p - 1) * s) ob fl)
        "sysparm_offset" = some (toString ((p - 1) * s))
    ∧ dget? (ServiceNowOperations.query_incidents_request q s ((p - 1) * s) ob fl)
        "sysparm_limit" = some (toString s) := by
  refine ⟨?_, ?_, ?_, rfl, rfl⟩
  · unfold ServiceNowPlugin.query_open_incidents
    rw [h1, h2]
  · unfold ServiceNowPlugin.query_high_priority_incidents
    rw [h1, h2]
  · unfold ServiceNowPlugin.search_incidents
    rw [h1, h2]

/-- C7 witness: the spec's worked example — page 2 with page size 20 gives
offset 20 and limit 20 on all three paged adapter functions. -/
theorem adapter_paging_offset_witness :
    ServiceNowPlugin.query_open_incidents (fun _ => .ok []) "2" "20"
      = ServiceNowPlugin.render_open_incidents 2 ((2 - 1) * 20)
          (ServiceNowOperations.query_incidents (fun _ => .ok []) (some "state!=6^state!=7") 20
            ((2 - 1) * 20) (some "^sys_updated_on") none)
    ∧ ServiceNowPlugin.query_high_priority_incidents (fun _ => .ok []) "2" "20"
      = ServiceNowPlugin.render_high_priority_incidents 2 ((2 - 1) * 20)
          (ServiceNowOperations.query_incidents (fun _ => .ok [])
            (some "priority=1^ORpriority=2") 20 ((2 - 1) * 20) (some "^sys_updated_on") none)
    ∧ ServiceNowPlugin.search_incidents (fun _ => .ok []) "vpn" "2" "20"
      = ServiceNowPlugin.render_search_incidents "vpn" 2 ((2 - 1) * 20)
          (ServiceNowOperations.query_incidents (fun _ => .ok [])
            (some ("short_descriptionLIKE" ++ "vpn" ++ "^ORdescriptionLIKE" ++ "vpn")) 20
            ((2 - 1) * 20) (some "^sys_updated_on") none)
    ∧ dget? (ServiceNowOperations.query_incidents_request none 20 ((2 - 1) * 20) none none)
        "sysparm_offset" = some (toString ((2 - 1) * 20 : Int))
    ∧ dget? (ServiceNowOperations.query_incidents_request none 20 ((2 - 1) * 20) none none)
        "sysparm_limit" = some (toString (20 : Int)) :=
  adapter_paging_offset "2" "20" "vpn" 2 20 (fun _ => .ok []) none none none
    (by decide) (by decide) (by decide)

/-- C8 counterexample: with no optional fields supplied, `close_incident`
still places `closed_at` (the server-side now sentinel) in the update
payload — a field outside the claimed subset of the closed-state code plus
the optional notes/reason fields. -/
theorem close_incident_updates_extra_field :
    dget? (ServiceNowOperations.close_incident_updates none none) "closed_at"
      = some "javascript:gs.nowDateTime()"
    ∧ (ServiceNowOperations.close_incident_updates none none).map Prod.fst ≠ ["state"]
    ∧ "closed_at" ∉ ["state", "close_notes", "close_code"] := by
  decide

/-- C8 (amended): each named convenience mutation builds an update payload of
its small fixed field subset and delegates to the generic update primitive —
for close and resolve the fixed subset is the state code together with the
`closed_at`/`resolved_at` server-side now sentinel, plus the optional
notes/reason fields when supplied non-empty; assign sets `assigned_to` plus
the optional `assignment_group`; nothing else is set. -/
theorem convenience_mutations_payloads (sysid assigned : String) (notes code grp : Option String)
    (http : String → Record → ObjOutcome) :
    ServiceNowOperations.close_incident http sysid notes code
      = ServiceNowOperations.update_incident http sysid
          (ServiceNowOperations.close_incident_updates notes code)
    ∧ (ServiceNowOperations.close_incident_updates notes code).map Prod.fst
      = ["state", "closed_at"] ++ (if pyTruthy notes then ["close_notes"] else [])
        ++ (if pyTruthy code then ["close_code"] else [])
    ∧ dget? (ServiceNowOperations.close_incident_updates notes code) "state" = some "7"
    ∧ ServiceNowOperations.resolve_incident http sysid notes code
      = ServiceNowOperations.update_incident http sysid
          (ServiceNowOperations.resolve_incident_updates notes code)
    ∧ (ServiceNowOperations.resolve_incident_updates notes code).map Prod.fst
      = ["state", "resolved_at"] ++ (if pyTruthy notes then ["resolution_notes"] else [])
        ++ (if pyTruthy code then ["resolution_code"] else [])
    ∧ dget? (ServiceNowOperations.resolve_incident_updates notes code) "state" = some "6"
    ∧ ServiceNowOperations.close_case http sysid notes code
      = ServiceNowOperations.update_case http sysid
          (ServiceNowOperations.close_case_updates notes code)
    ∧ (ServiceNowOperations.close_case_updates notes code).map Prod.fst
      = ["state", "resolved_at"] ++ (if pyTruthy notes then ["resolution_notes"] else [])
        ++ (if pyTruthy code then ["close_code"] else [])
    ∧ dget? (ServiceNowOperations.close_case_updates notes code) "state" = some "3"
    ∧ ServiceNowOperations.assign_incident http sysid assigned grp
      = ServiceNowOperations.update_incident http sysid
          (ServiceNowOperations.assign_incident_updates assigned grp)
    ∧ (ServiceNowOperations.assign_incident_updates assigned grp).map Prod.fst
      = ["assigned_to"] ++ (if pyTruthy grp then ["assignment_group"] else []) := by
  refine ⟨rfl, ?_, ?_, rfl, ?_, ?_, rfl, ?_, ?_, rfl, ?_⟩ <;>
    cases notes <;> cases code <;> cases grp <;>
    simp [ServiceNowOperations.close_incident_updates,
      ServiceNowOperations.resolve_incident_updates,
      ServiceNowOperations.close_case_updates,
      ServiceNowOperations.assign_incident_updates, pyTruthy, dget?] <;>
    split <;> simp [dget?] <;> split <;> simp

/-- C9: when a string parameter of a paged adapter function fails to parse as
an integer, the tool function returns a human-readable error string built
from the `ValueError` text — as a total function into `String` it propagates
neither an exception nor a structured error; this holds for a non-numeric
page_number and for a non-numeric page_size. -/
theorem adapter_parse_error_message (http : ReqParams → ListOutcome)
    (pn ps text : String) (p : Int) :
    (pyInt pn = none →
      ServiceNowPlugin.query_open_incidents http pn ps
        = "Invalid page parameters for open incidents: " ++ pyIntErr pn
      ∧ ServiceNowPlugin.query_high_priority_incidents http pn ps
        = "Invalid page parameters for high priority incidents: " ++ pyIntErr pn
      ∧ ServiceNowPlugin.search_incidents http text pn ps
        = "Invalid page parameters for search: " ++ pyIntErr pn)
    ∧ (pyInt pn = some p → pyInt ps = none →
      ServiceNowPlugin.query_open_incidents http pn ps
        = "Invalid page parameters for open incidents: " ++ pyIntErr ps
      ∧ ServiceNowPlugin.query_high_priority_incidents http pn ps
        = "Invalid page parameters for high priority incidents: " ++ pyIntErr ps
      ∧ ServiceNowPlugin.search_incidents http text pn ps
        = "Invalid page parameters for search: " ++ pyIntErr ps) := by
  constructor
  · intro h
    refine ⟨?_, ?_, ?_⟩
    · unfold ServiceNowPlugin.query_open_incidents
      rw [h]
    · unfold ServiceNowPlugin.query_high_priority_incidents
      rw [h]
    · unfold ServiceNowPlugin.search_incidents
      rw [h]
  · intro h1 h2
    refine ⟨?_, ?_, ?_⟩
    · unfold ServiceNowPlugin.query_open_incidents
      rw [h1, h2]
    · unfold ServiceNowPlugin.query_high_priority_incidents
      rw [h1, h2]
    · unfold ServiceNowPlugin.search_incidents
      rw [h1, h2]

/-- C9 witness: a non-numeric page_number and a non-numeric page_size each
produce the human-readable message. -/
theorem adapter_parse_error_message_witness :
    ServiceNowPlugin.query_open_incidents (fun _ => .ok []) "abc" "20"
      = "Invalid page parameters for open incidents: " ++ pyIntErr "abc"
    ∧ ServiceNowPlugin.search_incidents (fun _ => .ok []) "vpn" "1" "x!"
      = "Invalid page parameters for search: " ++ pyIntErr "x!" :=
  ⟨((adapter_parse_error_message (fun _ => .ok []) "abc" "20" "vpn" 0).1 (by decide)).1,
   ((adapter_parse_error_message (fun _ => .ok []) "1" "x!" "vpn" 1).2
     (by decide) (by decide)).2.2⟩

/-- C10: the adapter performs no lower-bound validation on page_number — a
page_number parsing to `p ≤ 0` (with positive page size) yields a negative
offset `(p - 1) * s < 0`, which `query_open_incidents` passes unchanged to
the façade list request as `sysparm_offset`, and the call still renders a
normally-shaped result rather than a parse or validation error. -/
theorem open_incidents_negative_offset (pn ps : String) (p s : Int)
    (http : ReqParams → ListOutcome)
    (h1 : pyInt pn = some p) (h2 : pyInt ps = some s) (hp : p ≤ 0) (hs : 0 < s) :
    (p - 1) * s < 0
    ∧ ServiceNowPlugin.query_open_incidents http pn ps
      = ServiceNowPlugin.render_open_incidents p ((p - 1) * s)
          (ServiceNowOperations.query_incidents http (some "state!=6^state!=7") s
            ((p - 1) * s) (some "^sys_updated_on") none)
    ∧ dget? (ServiceNowOperations.query_incidents_request (some "state!=6^state!=7") s
          ((p - 1) * s) (some "^sys_updated_on") none) "sysparm_offset"
        = some (toString ((p - 1) * s))
    ∧ ServiceNowPlugin.query_open_incidents (fun _ => .ok []) pn ps
      = "No open incidents found." := by
  refine ⟨mul_neg_of_neg_of_pos (by omega) hs, ?_, rfl, ?_⟩
  · unfold ServiceNowPlugin.query_open_incidents
    rw [h1, h2]
  · unfold ServiceNowPlugin.query_open_incidents
    rw [h1, h2]
    rfl

/-- C10 witness: page_number "0" with page size 20 gives offset -20, passed
through, and the empty page renders normally. -/
theorem open_incidents_negative_offset_witness :
    ((0 : Int) - 1) * 20 < 0
    ∧ ServiceNowPlugin.query_open_incidents (fun _ => .ok []) "0" "20"
      = ServiceNowPlugin.render_open_incidents 0 ((0 - 1) * 20)
          (ServiceNowOperations.query_incidents (fun _ => .ok []) (some "state!=6^state!=7") 20
            ((0 - 1) * 20) (some "^sys_updated_on") none)
    ∧ dget? (ServiceNowOperations.query_incidents_request (some "state!=6^state!=7") 20
          ((0 - 1) * 20) (some "^sys_updated_on") none) "sysparm_offset"
        = some (toString (((0 : Int) - 1) * 20))
    ∧ ServiceNowPlugin.query_open_incidents (fun _ => .ok []) "0" "20"
      = "No open incidents found." :=
  open_incidents_negative_offset "0" "20" 0 20 (fun _ => .ok [])
    (by decide) (by decide) (by decide) (by decide)
